import Mathlib

/-!
Verification development for the queue-based video recorder of `optr`
(`src/optr/stream/recorder/recorder.py`) and the generic queued writer
(`src/optr/stream/recorder/queued_writer.py`).

The Python classes are shallowly embedded as pure state-transition
functions over explicit state records.  Conventions:

* Machine floats (fps, wall-clock times) are elided or modelled as `Nat`
  instants passed explicitly to each operation (`now`); only ordering and
  arithmetic on them matters to the properties considered here.
* The `imageio` writer object is modelled as an abstract handle
  (`WHandle`) carrying a fresh numeric id and the action id for whose
  file it was opened; calls into it (`append_data`, `close`) are logged
  in a ghost event trace `events`, since they are the observable effects.
* `queue.Queue` is modelled by `MQueue`: a FIFO list plus the `maxsize`
  parameter; `put_nowait` fails exactly when `0 < maxsize` and the queue
  already holds `maxsize` items (Python: `maxsize <= 0` means unbounded).
  The ghost field `put_log` of the recorder state records every message
  successfully enqueued, so "a sentinel was never enqueued" is statable.
* Python truthiness (`if action_id:` on an `Optional[str]`) is modelled
  by `optTruthy`: true exactly for `some s` with `s` non-empty.
* The per-action bookkeeping dict `active_recordings` is modelled as an
  insertion-ordered association list with Python-dict get/set/del.
* Exceptions caught inside the code (frame-reshape errors, `queue.Full`,
  writer-close errors that are only logged) are modelled by the branch
  the handler takes; an exception that propagates to the caller
  (writer-factory failure in `start_recording`) is modelled by an
  `Except` result.  Whether the `imageio.get_writer` factory succeeds is
  a boolean parameter of `start_recording`.
-/

/-- Status strings stored in `active_recordings[...]["status"]`. -/
inductive RStatus where
  | recording
  | finalizing
  | completed
  | error
deriving DecidableEq, Repr

/-- One entry of `active_recordings`: the per-action bookkeeping dict
created in `start_recording` and mutated by stop/finalize paths. -/
structure SessionRec where
  file_path : String
  start_time : Nat
  status : RStatus
  frame_count : Nat
  end_time : Option Nat
  duration : Option Int
  err : Option String
deriving DecidableEq, Repr

/-- Messages travelling through `frame_queue`: either the frame dict
built in `add_frame` (payload, tagging action id, frame number,
timestamp) or the EOS sentinel dict (`{"type": "EOS", ...}`). -/
inductive QMsg where
  | data (action_id : Option String) (frame : List Nat) (frame_number : Nat) (timestamp : Nat)
  | eos (action_id : Option String) (timestamp : Nat)
deriving DecidableEq, Repr

/-- Ghost trace of observable calls into writer objects and callbacks. -/
inductive REvent where
  | closedWriter (hid : Nat)
  | wroteFrame (hid : Nat) (action_id : Option String) (frame_number : Nat)
  | finalizedCallback (action_id : String)
deriving DecidableEq, Repr

/-- Abstract `imageio` writer handle: a fresh id plus the action id whose
recording file it was opened for. -/
structure WHandle where
  hid : Nat
  owner : String
deriving DecidableEq, Repr

/-- Model of `queue.Queue(maxsize)`: FIFO items plus the capacity bound.
Python semantics: `maxsize <= 0` means the queue is unbounded. -/
structure MQueue where
  maxsize : Int
  items : List QMsg
deriving DecidableEq, Repr

/-- `queue.Queue.put_nowait`: fails (raises `queue.Full`, here `none`)
exactly when the queue is bounded and full; otherwise appends. -/
def mqPutNowait (q : MQueue) (m : QMsg) : Option MQueue :=
  if 0 < q.maxsize ∧ q.maxsize ≤ (q.items.length : Int) then none
  else some { q with items := q.items ++ [m] }

/-- Python-dict lookup on the association list. -/
def alGet : List (String × SessionRec) → String → Option SessionRec
  | [], _ => none
  | (k, v) :: rest, key => if k = key then some v else alGet rest key

/-- Python-dict store: replace the entry in place, else append. -/
def alSet : List (String × SessionRec) → String → SessionRec → List (String × SessionRec)
  | [], key, v => [(key, v)]
  | (k, w) :: rest, key, v =>
      if k = key then (key, v) :: rest else (k, w) :: alSet rest key v

/-- Python-dict `del`. -/
def alErase : List (String × SessionRec) → String → List (String × SessionRec)
  | [], _ => []
  | (k, w) :: rest, key => if k = key then rest else (k, w) :: alErase rest key

/-- Python truthiness of an `Optional[str]`: `None` and `""` are falsy. -/
def optTruthy : Option String → Bool
  | none => false
  | some s => s ≠ ""

/-- `str(path) if path else ""`. -/
def pathStr : Option String → String
  | none => ""
  | some p => p

/-- State of one `Recorder` instance.  `events` and `put_log` are ghost
observation logs; everything else mirrors a `self.*` attribute.  The
float `fps` and the filesystem are elided (no claim mentions them). -/
structure RecState where
  output_dir : String
  width : Nat
  height : Nat
  frame_queue : MQueue
  writer_active : Bool
  is_recording : Bool
  current_action_id : Option String
  writer : Option WHandle
  recording_file_path : Option String
  active_recordings : List (String × SessionRec)
  frames_queued : Nat
  frames_written : Nat
  callback_set : Bool
  next_handle : Nat
  events : List REvent
  put_log : List QMsg
deriving DecidableEq, Repr

/-- `Recorder.__init__`: note `frame_queue` is created with
`maxsize=0`, i.e. unbounded. -/
def recorderInit (output_dir : String) (width height : Nat) : RecState :=
  { output_dir := output_dir
    width := width
    height := height
    frame_queue := { maxsize := 0, items := [] }
    writer_active := false
    is_recording := false
    current_action_id := none
    writer := none
    recording_file_path := none
    active_recordings := []
    frames_queued := 0
    frames_written := 0
    callback_set := false
    next_handle := 0
    events := []
    put_log := [] }

/-- The recording path generated in `start_recording`:
`output_dir / f"action_{action_id}_{int(time.time()*1000)}.mp4"`. -/
def recordingPathName (dir action_id : String) (now : Nat) : String :=
  dir ++ "/action_" ++ action_id ++ "_" ++ toString (now * 1000) ++ ".mp4"

/-- `Recorder._stop_current_recording` — the synchronous stop used when
`start_recording` switches actions.  The 15 s drain wait is a pure delay
in the model: the caller holds `self.lock` throughout, and the writer
loop needs that same lock to process any message, so no queue item can
be consumed during the wait.  Closing the writer (errors are caught and
only logged) is recorded as a `closedWriter` event; the bookkeeping
entry of the current action is set to `completed`. -/
def stopCurrentRecording (s : RecState) (now : Nat) : RecState × Option String :=
  if s.is_recording = false then (s, none)
  else
    let s1 :=
      match s.writer with
      | some w => { s with events := s.events ++ [REvent.closedWriter w.hid], writer := none }
      | none => s
    let fp := s1.recording_file_path
    let s2 :=
      match s1.current_action_id with
      | some aid =>
          if aid ≠ "" then
            match alGet s1.active_recordings aid with
            | some r =>
                let r2 := { r with status := RStatus.completed,
                                   end_time := some now,
                                   duration := some ((now : Int) - (r.start_time : Int)) }
                { s1 with active_recordings := alSet s1.active_recordings aid r2 }
            | none => s1
          else s1
      | none => s1
    ({ s2 with is_recording := false, current_action_id := none,
               recording_file_path := none }, fp)

/-- `Recorder._stop_current_recording_async` — the non-blocking stop used
by `stop_recording`: marks the current action `finalizing`, enqueues its
EOS sentinel (skipped when the action id is falsy; a `queue.Full` there
is only logged), then resets the recording state.  Note the writer
handle is dropped (`self.writer = None`) without a close call. -/
def stopCurrentRecordingAsync (s : RecState) (now : Nat) : RecState × Option String :=
  if s.is_recording = false then (s, none)
  else
    let aid := s.current_action_id
    let fp := s.recording_file_path
    let s1 :=
      match aid with
      | some a =>
          if a ≠ "" then
            match alGet s.active_recordings a with
            | some r =>
                let r2 := { r with status := RStatus.finalizing,
                                   end_time := some now,
                                   duration := some ((now : Int) - (r.start_time : Int)) }
                { s with active_recordings := alSet s.active_recordings a r2 }
            | none => s
          else s
      | none => s
    let s2 :=
      match aid with
      | some a =>
          if a ≠ "" then
            match mqPutNowait s1.frame_queue (QMsg.eos (some a) now) with
            | some q => { s1 with frame_queue := q,
                                  put_log := s1.put_log ++ [QMsg.eos (some a) now] }
            | none => s1
          else s1
      | none => s1
    ({ s2 with is_recording := false, current_action_id := none,
               writer := none, recording_file_path := none }, fp)

/-- `Recorder.start_recording`.  `factoryOk` tells whether the
`imageio.get_writer` call succeeds; on failure the exception propagates
(`Except.error ()`), with every mutation made before the factory call
(the synchronous stop of a different active action, and the assignment
of `recording_file_path`) already committed, exactly as in Python. -/
def start_recording (s : RecState) (now : Nat) (action_id : String)
    (factoryOk : Bool) : RecState × Except Unit String :=
  if s.is_recording = true ∧ s.current_action_id = some action_id then
    (s, Except.ok (pathStr s.recording_file_path))
  else
    let s1 :=
      if s.is_recording = true ∧ s.current_action_id ≠ some action_id then
        (stopCurrentRecording s now).1
      else s
    let path := recordingPathName s1.output_dir action_id now
    let s2 := { s1 with recording_file_path := some path }
    if factoryOk = false then (s2, Except.error ())
    else
      let w : WHandle := { hid := s2.next_handle, owner := action_id }
      let s3 := { s2 with writer := some w,
                          next_handle := s2.next_handle + 1,
                          frames_queued := 0,
                          frames_written := 0,
                          is_recording := true,
                          current_action_id := some action_id }
      let s4 := if s3.writer_active = false then { s3 with writer_active := true } else s3
      let newRec : SessionRec :=
        { file_path := path,
          start_time := now,
          status := RStatus.recording,
          frame_count := 0,
          end_time := none,
          duration := none,
          err := none }
      let s5 := { s4 with active_recordings := alSet s4.active_recordings action_id newRec }
      (s5, Except.ok path)

/-- `Recorder.add_frame`.  A payload is structurally valid when its byte
length is `height * width * 3` (the `reshape((height, width, 3))`); an
invalid payload raises inside the `try`, is caught and only logged.  On
a valid payload the frame dict is enqueued (`queue.Full` is caught and
logged) and the live `frame_count` of the current action is bumped —
the latter guarded by Python truthiness of `current_action_id`. -/
def add_frame (s : RecState) (now : Nat) (payload : List Nat) : RecState :=
  if s.is_recording = false then s
  else if payload.length = s.height * s.width * 3 then
    let msg := QMsg.data s.current_action_id payload s.frames_queued now
    match mqPutNowait s.frame_queue msg with
    | some q =>
        let s1 := { s with frame_queue := q, put_log := s.put_log ++ [msg],
                           frames_queued := s.frames_queued + 1 }
        match s1.current_action_id with
        | some a =>
            if a ≠ "" then
              match alGet s1.active_recordings a with
              | some r =>
                  let r2 := { r with frame_count := r.frame_count + 1 }
                  { s1 with active_recordings := alSet s1.active_recordings a r2 }
              | none => s1
            else s1
        | none => s1
    | none => s
  else s

/-- `Recorder.stop_recording`: returns `None` unless `action_id` is the
currently active action, otherwise delegates to the async stop. -/
def stop_recording (s : RecState) (now : Nat) (action_id : String) :
    RecState × Option String :=
  if s.is_recording = true ∧ s.current_action_id = some action_id then
    stopCurrentRecordingAsync s now
  else (s, none)

/-- One iteration of `Recorder._writer_loop` when a message is
available.  EOS: the writer is closed only when a writer object exists
AND the message's action id equals `current_action_id` right now.
Data: written only when a writer object exists AND the message's action
id equals `current_action_id` right now. -/
def writerStep (s : RecState) : RecState :=
  match s.frame_queue.items with
  | [] => s
  | msg :: rest =>
    let s1 := { s with frame_queue := { s.frame_queue with items := rest } }
    match msg with
    | QMsg.eos aid _ =>
        match s1.writer with
        | some w =>
            if s1.current_action_id = aid then
              { s1 with events := s1.events ++ [REvent.closedWriter w.hid], writer := none }
            else s1
        | none => s1
    | QMsg.data aid _ n _ =>
        match s1.writer with
        | some w =>
            if aid = s1.current_action_id then
              { s1 with events := s1.events ++ [REvent.wroteFrame w.hid aid n],
                        frames_written := s1.frames_written + 1 }
            else s1
        | none => s1

/-- Run the writer loop until the queue is empty (fuel-indexed). -/
def writerDrainFuel : Nat → RecState → RecState
  | 0, s => s
  | n + 1, s => writerDrainFuel n (writerStep s)

/-- Drain every message currently queued through the writer loop. -/
def writerDrain (s : RecState) : RecState :=
  writerDrainFuel s.frame_queue.items.length s

/-- The `with self.lock:` block of `Recorder.close` (lines 441-464): if
an action is recording, enqueue its EOS sentinel (on `queue.Full`,
force-close the writer instead) and reset the recording state.  The
writer handle is NOT cleared in the successful-enqueue path. -/
def closeLockPhase (s : RecState) (now : Nat) : RecState :=
  if s.is_recording = true ∧ optTruthy s.current_action_id = true then
    let a := s.current_action_id
    let s1 :=
      match mqPutNowait s.frame_queue (QMsg.eos a now) with
      | some q => { s with frame_queue := q, put_log := s.put_log ++ [QMsg.eos a now] }
      | none =>
          match s.writer with
          | some w => { s with events := s.events ++ [REvent.closedWriter w.hid], writer := none }
          | none => s
    { s1 with is_recording := false, current_action_id := none,
              recording_file_path := none }
  else s

/-- `Recorder.close`: the lock phase, then the shutdown signal
(`writer_active = False`, event set — the loop condition is re-checked
before any further dequeue, so the worker exits), the bounded join, and
the drain-and-discard of whatever is still queued. -/
def recorder_close (s : RecState) (now : Nat) : RecState :=
  let s1 := closeLockPhase s now
  let s2 := { s1 with writer_active := false }
  { s2 with frame_queue := { s2.frame_queue with items := [] } }

/-- `Recorder.get_recording_status`: a copy of the bookkeeping entry. -/
def get_recording_status (s : RecState) (action_id : String) : Option SessionRec :=
  alGet s.active_recordings action_id

/-- `Recorder.delete_recording`: removes the registry entry (the
best-effort file unlink is elided; its failure only affects the returned
boolean, never the registry removal). -/
def delete_recording (s : RecState) (action_id : String) : RecState × Bool :=
  match alGet s.active_recordings action_id with
  | none => (s, false)
  | some _ => ({ s with active_recordings := alErase s.active_recordings action_id }, true)

/-- `Recorder.cleanup_old_recordings` on the registry: drops every entry
whose `end_time` (default 0) is older than the cutoff.  File-system
cleanup is elided. -/
def cleanup_old_recordings (s : RecState) (now : Nat) (max_age_hours : Nat) : RecState :=
  let cutoff : Int := (now : Int) - (max_age_hours : Int) * 3600
  let kept := s.active_recordings.filter (fun kv => ¬ ((kv.2.end_time.getD 0 : Int) < cutoff))
  { s with active_recordings := kept }

/-- `Recorder._finalize_recording_async`, translated for reference: it
closes the passed writer, marks the action `completed` and fires the
finalized callback (or records `error` when the close fails,
`closeOk = false`).  NOTE: no code path in the source ever invokes this
method — the `finalization_executor` created in `__init__` is never
submitted to — so it is dead code; it is included here because several
spec sentences describe the behaviour only it implements. -/
def finalizeRecordingAsync (s : RecState) (action_id : String)
    (writer : Option WHandle) (closeOk : Bool) : RecState :=
  if closeOk = true then
    let s1 :=
      match writer with
      | some w => { s with events := s.events ++ [REvent.closedWriter w.hid] }
      | none => s
    let s2 :=
      match alGet s1.active_recordings action_id with
      | some r =>
          let r2 := { r with status := RStatus.completed }
          { s1 with active_recordings := alSet s1.active_recordings action_id r2 }
      | none => s1
    if s2.callback_set = true ∧ (alGet s.active_recordings action_id).isSome then
      { s2 with events := s2.events ++ [REvent.finalizedCallback action_id] }
    else s2
  else
    match alGet s.active_recordings action_id with
    | some r =>
        let r2 := { r with status := RStatus.error, err := some "close failed" }
        { s with active_recordings := alSet s.active_recordings action_id r2 }
    | none => s

/-- State of one `QueuedWriter` instance
(`src/optr/stream/recorder/queued_writer.py`).  The wrapped `Writer` is
abstract (its module is not in the source tree); only the calls made
into it are observable, counted by `wrapped_writes` / `wrapped_closes`.
`qw_queue` holds queued frames, with `none` as the EOS sentinel;
`sentinels_sent` counts sentinel enqueues and `join_attempts` counts the
bounded `thread.join(timeout=10)` calls — all ghost counters. -/
structure QWState where
  active : Bool
  queued : Nat
  written : Nat
  qw_queue : List (Option (List Nat))
  sentinels_sent : Nat
  wrapped_writes : Nat
  wrapped_closes : Nat
  join_attempts : Nat
deriving DecidableEq, Repr

/-- `QueuedWriter.__init__`: starts active with empty unbounded queue
(the processing thread is modelled by `qwStep`). -/
def qwInit : QWState :=
  { active := true, queued := 0, written := 0, qw_queue := [],
    sentinels_sent := 0, wrapped_writes := 0, wrapped_closes := 0,
    join_attempts := 0 }

/-- `QueuedWriter.write`: no-op once inactive; otherwise enqueues a copy
of the frame (the queue is unbounded — `maxsize=0` — so the
`queue.Full` handler is unreachable) and bumps `queued`. -/
def qw_write (s : QWState) (frame : List Nat) : QWState :=
  if s.active = false then s
  else { s with qw_queue := s.qw_queue ++ [some frame], queued := s.queued + 1 }

/-- `QueuedWriter.close`: no-op once inactive; otherwise clears
`active`, enqueues one EOS sentinel, joins the thread with a bounded
timeout, and closes the wrapped writer once. -/
def qw_close (s : QWState) : QWState :=
  if s.active = false then s
  else { s with active := false,
                qw_queue := s.qw_queue ++ [none],
                sentinels_sent := s.sentinels_sent + 1,
                join_attempts := s.join_attempts + 1,
                wrapped_closes := s.wrapped_closes + 1 }

/-- One iteration of `QueuedWriter._process_loop` with a message
available: a `none` sentinel stops the loop (modelled as only removing
it); a frame is forwarded to the wrapped writer and `written` bumped. -/
def qwStep (s : QWState) : QWState :=
  match s.qw_queue with
  | [] => s
  | none :: rest => { s with qw_queue := rest }
  | some _ :: rest =>
      { s with qw_queue := rest, written := s.written + 1,
               wrapped_writes := s.wrapped_writes + 1 }

/-- Number of structurally valid payloads (length `height*width*3`) in a
sequence of `add_frame` arguments. -/
def countValid (width height : Nat) : List (List Nat) → Nat
  | [] => 0
  | p :: ps => (if p.length = height * width * 3 then 1 else 0) + countValid width height ps

/-! ### Concrete states used by counterexamples and witnesses.

The test recorder has `width = 2`, `height = 1`, so a structurally valid
frame payload is any 6-byte buffer. -/

def validPayload : List Nat := [0, 0, 0, 0, 0, 0]

def rec0 : RecState := recorderInit "/r" 2 1

/-- After `start_recording("a")` at t=0. -/
def recA : RecState := (start_recording rec0 0 "a" true).1

/-- ... then one valid `add_frame` at t=1. -/
def recAF : RecState := add_frame recA 1 validPayload

/-- ... then `stop_recording("a")` at t=2. -/
def recAFS : RecState := (stop_recording recAF 2 "a").1

/-! ### Generic lemmas about the embedded containers -/

theorem alGet_alSet (l : List (String × SessionRec)) (k : String) (v : SessionRec)
    (k' : String) :
    alGet (alSet l k v) k' = if k = k' then some v else alGet l k' := by
  induction l with
  | nil => simp [alSet, alGet]
  | cons hd tl ih =>
      obtain ⟨a, w⟩ := hd
      by_cases hak : a = k
      · subst hak
        by_cases hk : a = k' <;> simp [alSet, alGet, hk]
      · by_cases hk : a = k'
        · subst hk
          have : ¬ k = a := fun h => hak h.symm
          simp [alSet, alGet, hak, this]
        · simp [alSet, alGet, hak, hk, ih]

theorem alGet_alSet_isSome (l : List (String × SessionRec)) (k : String)
    (v : SessionRec) (k' : String) (h : (alGet l k').isSome = true) :
    (alGet (alSet l k v) k').isSome = true := by
  rw [alGet_alSet]
  by_cases hk : k = k' <;> simp [hk, h]

theorem mqPutNowait_unbounded (q : MQueue) (m : QMsg) (h : q.maxsize = 0) :
    mqPutNowait q m = some { q with items := q.items ++ [m] } := by
  simp [mqPutNowait, h]

/-- Claim C1 (code bug, evaluated at the failing input): start action
"a", add one valid frame, call `stop_recording("a")`, then let the
writer loop process every queued message (the data frame and the EOS
sentinel).  Contrary to the claim, the sink is never closed (the async
stop already dropped `self.writer` before the worker could see the
sentinel, so the EOS branch's `self.writer and current == action_id`
test is false), the session stays `finalizing` forever instead of
becoming `completed`, and no finalize callback fires — the only code
that would do any of this, `_finalize_recording_async`, is never
invoked.  The event log is empty: no close call, no callback. -/
theorem claim_C1_stop_never_finalizes :
    get_recording_status (writerDrain recAFS) "a" =
      some { file_path := "/r/action_a_0.mp4", start_time := 0,
             status := RStatus.finalizing, frame_count := 1,
             end_time := some 2, duration := some 2, err := none } ∧
    (writerDrain recAFS).events = [] ∧
    (writerDrain recAFS).frame_queue.items = [] ∧
    (writerDrain recAFS).frames_written = 0 := by
  decide

/-- Claim C2 counterexample: start "a", add one valid frame, then run
the lock-phase of `close` (which enqueues the EOS sentinel and clears
`current_action_id` but leaves `self.writer` open — the writer is the
open sink for "a").  When the writer loop then dequeues the DATA
message carried by session id "a", a sink IS open for "a", yet the
frame is not written: the loop compares the carried id against
`current_action_id` (now `None`), not against the sink's session.  This
interleaving is reachable: `close` releases the metadata lock before it
signals shutdown, and the worker may process queued messages in that
window. -/
theorem claim_C2_cex :
    (closeLockPhase recAF 2).writer = some { hid := 0, owner := "a" } ∧
    (closeLockPhase recAF 2).frame_queue.items.head? =
      some (QMsg.data (some "a") validPayload 0 1) ∧
    (writerStep (closeLockPhase recAF 2)).frames_written = 0 ∧
    (writerStep (closeLockPhase recAF 2)).events = [] := by
  decide

/-- Claim C3 counterexample: `start_recording("a")` then
`start_recording("b")`.  Contrary to the claim, the stop of "a" is
synchronous: no end-of-session sentinel is ever enqueued (the enqueue
log stays empty), "a" jumps straight to `completed` (never
`finalizing`), and its sink is closed directly on the caller's thread
(the `closedWriter` event). -/
theorem claim_C3_cex :
    get_recording_status (start_recording recA 1 "b" true).1 "a" =
      some { file_path := "/r/action_a_0.mp4", start_time := 0,
             status := RStatus.completed, frame_count := 0,
             end_time := some 1, duration := some 1, err := none } ∧
    (start_recording recA 1 "b" true).1.put_log = [] ∧
    (start_recording recA 1 "b" true).1.events = [REvent.closedWriter 0] ∧
    (start_recording recA 1 "b" true).1.current_action_id = some "b" := by
  decide

/-- Claim C4 counterexample: with "a" active, `start_recording("b")`
whose sink factory fails.  The error does propagate and no session "b"
is registered — but the previously active session "a" is NOT left
untouched: before the factory was called it was already synchronously
stopped (status `completed`, sink closed, active pointer cleared), so it
is neither active nor `Recording` any more. -/
theorem claim_C4_cex :
    (start_recording recA 1 "b" false).2 = Except.error () ∧
    get_recording_status (start_recording recA 1 "b" false).1 "b" = none ∧
    get_recording_status (start_recording recA 1 "b" false).1 "a" =
      some { file_path := "/r/action_a_0.mp4", start_time := 0,
             status := RStatus.completed, frame_count := 0,
             end_time := some 1, duration := some 1, err := none } ∧
    (start_recording recA 1 "b" false).1.is_recording = false ∧
    (start_recording recA 1 "b" false).1.current_action_id = none := by
  refine ⟨rfl, by decide, by decide, by decide, by decide⟩

/-- Claim C5 counterexample: the empty string is a legal session id
(`start_recording("")` registers and activates it), and a structurally
valid frame is accepted and queued (`frames_queued` becomes 1), yet the
session's `frame_count` stays 0: the live-counter update is guarded by
Python truthiness of `current_action_id`, and `""` is falsy. -/
theorem claim_C5_cex :
    (add_frame (start_recording rec0 0 "" true).1 1 validPayload).is_recording = true ∧
    (add_frame (start_recording rec0 0 "" true).1 1 validPayload).frames_queued = 1 ∧
    validPayload.length = rec0.height * rec0.width * 3 ∧
    (get_recording_status
      (add_frame (start_recording rec0 0 "" true).1 1 validPayload) "").map
        (fun r => r.frame_count) = some 0 := by
  decide

/-- Claim C8 counterexample: start "a", add one valid frame
(`frame_count = 1`), stop "a", then `start_recording("a")` again.  The
registry entry for "a" is replaced by a brand-new record: the frozen
`frame_count` 1 is lost (reset to 0), the path changes, and the old
record's identity is not preserved — contradicting "never destroyed or
replaced ... including when start_recording is later called again with
the same id". -/
theorem claim_C8_cex :
    get_recording_status recAF "a" =
      some { file_path := "/r/action_a_0.mp4", start_time := 0,
             status := RStatus.recording, frame_count := 1,
             end_time := none, duration := none, err := none } ∧
    get_recording_status (start_recording recAFS 3 "a" true).1 "a" =
      some { file_path := "/r/action_a_3000.mp4", start_time := 3,
             status := RStatus.recording, frame_count := 0,
             end_time := none, duration := none, err := none } := by
  decide

/-- Claim C10: `QueuedWriter.close` is idempotent and write-after-close
is a no-op.  From an active state, the first close enqueues exactly one
end-of-stream sentinel, performs exactly one bounded join attempt, and
closes the wrapped writer exactly once; a second close is the identity
(no further sentinel, no further wrapped close), and a `write` after
close changes nothing — in particular the `queued` counter. -/
theorem claim_C10_close_idempotent (s : QWState) (frame : List Nat) :
    qw_close (qw_close s) = qw_close s ∧
    qw_write (qw_close s) frame = qw_close s ∧
    (s.active = true →
      (qw_close s).sentinels_sent = s.sentinels_sent + 1 ∧
      (qw_close s).wrapped_closes = s.wrapped_closes + 1 ∧
      (qw_close s).join_attempts = s.join_attempts + 1 ∧
      (qw_close s).qw_queue = s.qw_queue ++ [none]) ∧
    (s.active = false → qw_close s = s ∧ qw_write s frame = s) := by
  by_cases h : s.active = true
  · constructor
    · simp [qw_close, h]
    · constructor
      · simp [qw_close, qw_write, h]
      · constructor
        · intro _
          simp [qw_close, h]
        · intro hf
          rw [h] at hf
          cases hf
  · have h0 : s.active = false := by
      cases hs : s.active
      · rfl
      · exact absurd hs h
    refine ⟨?_, ?_, ?_, ?_⟩
    · simp [qw_close, h0]
    · simp [qw_close, qw_write, h0]
    · intro h1
      rw [h1] at h0
      cases h0
    · intro _
      exact ⟨by simp [qw_close, h0], by simp [qw_write, h0]⟩

/-- Witness for C10 at a concrete active state. -/
theorem claim_C10_witness :
    qwInit.active = true ∧
    ((qw_close (qw_close qwInit) = qw_close qwInit ∧
      qw_write (qw_close qwInit) [7] = qw_close qwInit) ∧
     (qw_close qwInit).sentinels_sent = qwInit.sentinels_sent + 1 ∧
     (qw_close qwInit).wrapped_closes = qwInit.wrapped_closes + 1) := by
  refine ⟨rfl, ?_⟩
  have h := claim_C10_close_idempotent qwInit [7]
  exact ⟨⟨h.1, h.2.1⟩, (h.2.2.1 rfl).1, (h.2.2.1 rfl).2.1⟩

/-! ### Helper lemmas about the recorder transitions -/

theorem stopSync_preserves (s : RecState) (now : Nat) :
    (stopCurrentRecording s now).1.output_dir = s.output_dir ∧
    (stopCurrentRecording s now).1.width = s.width ∧
    (stopCurrentRecording s now).1.height = s.height ∧
    (stopCurrentRecording s now).1.frame_queue = s.frame_queue ∧
    (stopCurrentRecording s now).1.writer_active = s.writer_active ∧
    (stopCurrentRecording s now).1.next_handle = s.next_handle ∧
    (stopCurrentRecording s now).1.put_log = s.put_log := by
  unfold stopCurrentRecording
  by_cases h : s.is_recording = false
  · simp [h]
  · rw [if_neg h]
    cases hw : s.writer <;> simp only [hw] <;> (repeat' split) <;> simp

theorem stopSync_spec (s : RecState) (now : Nat) (bid : String) (r : SessionRec)
    (h1 : s.is_recording = true) (h2 : s.current_action_id = some bid)
    (h3 : bid ≠ "") (h4 : alGet s.active_recordings bid = some r) :
    (stopCurrentRecording s now).1.is_recording = false ∧
    (stopCurrentRecording s now).1.current_action_id = none ∧
    (stopCurrentRecording s now).1.recording_file_path = none ∧
    (stopCurrentRecording s now).1.active_recordings =
      alSet s.active_recordings bid
        { r with status := RStatus.completed, end_time := some now,
                 duration := some ((now : Int) - (r.start_time : Int)) } := by
  unfold stopCurrentRecording
  rw [if_neg (by simp [h1])]
  cases hw : s.writer <;> simp [hw, h2, h3, h4]

theorem asyncStop_not_recording (s : RecState) (now : Nat) :
    (stopCurrentRecordingAsync s now).1.is_recording = false := by
  unfold stopCurrentRecordingAsync
  by_cases h : s.is_recording = false
  · simp [h]
  · rw [if_neg h]

theorem stop_recording_not_active (t : RecState) (now : Nat) (aid : String)
    (h : ¬ (t.is_recording = true ∧ t.current_action_id = some aid)) :
    stop_recording t now aid = (t, none) := by
  unfold stop_recording
  rw [if_neg h]

theorem mqPutNowait_maxsize (q : MQueue) (m : QMsg) (q' : MQueue)
    (h : mqPutNowait q m = some q') : q'.maxsize = q.maxsize := by
  unfold mqPutNowait at h
  split at h
  · cases h
  · injection h with h2
    rw [← h2]

theorem add_frame_queue_maxsize (s : RecState) (now : Nat) (p : List Nat) :
    (add_frame s now p).frame_queue.maxsize = s.frame_queue.maxsize := by
  unfold add_frame
  by_cases h : s.is_recording = false
  · simp [h]
  · rw [if_neg h]
    by_cases hv : p.length = s.height * s.width * 3
    · rw [if_pos hv]
      cases hput : mqPutNowait s.frame_queue (QMsg.data s.current_action_id p s.frames_queued now) with
      | none => simp [hput]
      | some q =>
          have hq := mqPutNowait_maxsize _ _ _ hput
          simp only [hput]
          (repeat' split) <;> simp [hq]
    · rw [if_neg hv]

theorem start_recording_queue (s : RecState) (now : Nat) (aid : String) (fok : Bool) :
    (start_recording s now aid fok).1.frame_queue = s.frame_queue := by
  unfold start_recording
  by_cases h1 : s.is_recording = true ∧ s.current_action_id = some aid
  · simp [h1]
  · rw [if_neg h1]
    by_cases h2 : s.is_recording = true ∧ s.current_action_id ≠ some aid
    · rw [if_pos h2]
      have hq := (stopSync_preserves s now).2.2.2.1
      cases fok
      · simp [hq]
      · dsimp only
        (repeat' split) <;> simp [hq]
    · rw [if_neg h2]
      cases fok
      · simp
      · dsimp only
        (repeat' split) <;> simp

theorem asyncStop_queue_maxsize (s : RecState) (now : Nat) :
    (stopCurrentRecordingAsync s now).1.frame_queue.maxsize = s.frame_queue.maxsize := by
  unfold stopCurrentRecordingAsync
  by_cases h : s.is_recording = false
  · simp [h]
  · rw [if_neg h]
    cases hc : s.current_action_id with
    | none => simp [hc]
    | some a =>
        by_cases ha : a = ""
        · simp [hc, ha]
        · cases hg : alGet s.active_recordings a
          all_goals
            simp only [hc, hg, ha, if_neg, ite_false]
          all_goals
            cases hput : mqPutNowait s.frame_queue (QMsg.eos (some a) now) with
            | none => simp [hput, ha]
            | some q => simp [hput, ha, mqPutNowait_maxsize _ _ _ hput]

theorem writerStep_queue_maxsize (s : RecState) :
    (writerStep s).frame_queue.maxsize = s.frame_queue.maxsize := by
  unfold writerStep
  cases hq : s.frame_queue.items with
  | nil => rfl
  | cons msg rest =>
      cases msg <;> dsimp only <;> (repeat' split) <;> simp

theorem close_queue_maxsize (s : RecState) (now : Nat) :
    (recorder_close s now).frame_queue.maxsize = s.frame_queue.maxsize := by
  unfold recorder_close closeLockPhase
  by_cases h : s.is_recording = true ∧ optTruthy s.current_action_id = true
  · rw [if_pos h]
    cases hput : mqPutNowait s.frame_queue (QMsg.eos s.current_action_id now) with
    | none => cases hw : s.writer <;> simp [hput, hw]
    | some q => simp [hput, mqPutNowait_maxsize _ _ _ hput]
  · simp [h]

theorem stop_recording_queue_maxsize (s : RecState) (now : Nat) (aid : String) :
    (stop_recording s now aid).1.frame_queue.maxsize = s.frame_queue.maxsize := by
  unfold stop_recording
  by_cases h : s.is_recording = true ∧ s.current_action_id = some aid
  · rw [if_pos h]
    exact asyncStop_queue_maxsize s now
  · rw [if_neg h]

theorem start_recording_already (t : RecState) (now : Nat) (aid : String) (fok : Bool)
    (h : t.is_recording = true ∧ t.current_action_id = some aid) :
    start_recording t now aid fok = (t, Except.ok (pathStr t.recording_file_path)) := by
  unfold start_recording
  rw [if_pos h]

theorem start_true_fields (s0 : RecState) (now : Nat) (aid : String)
    (h : ¬ (s0.is_recording = true ∧ s0.current_action_id = some aid)) :
    (start_recording s0 now aid true).1.is_recording = true ∧
    (start_recording s0 now aid true).1.current_action_id = some aid ∧
    ∃ p, (start_recording s0 now aid true).1.recording_file_path = some p ∧
         (start_recording s0 now aid true).2 = Except.ok p := by
  unfold start_recording
  rw [if_neg h]
  dsimp only
  (repeat' split) <;> simp_all

theorem start_switch_spec (s : RecState) (now : Nat) (aid bid : String) (r : SessionRec)
    (fok : Bool) (h1 : s.is_recording = true) (h2 : s.current_action_id = some bid)
    (h3 : bid ≠ "") (h4 : alGet s.active_recordings bid = some r) (hne : aid ≠ bid) :
    alGet (start_recording s now aid fok).1.active_recordings bid =
      some { r with status := RStatus.completed, end_time := some now,
                    duration := some ((now : Int) - (r.start_time : Int)) } ∧
    (start_recording s now aid fok).1.put_log = s.put_log ∧
    (fok = true → (start_recording s now aid fok).1.is_recording = true ∧
      (start_recording s now aid fok).1.current_action_id = some aid) ∧
    (fok = false → (start_recording s now aid fok).2 = Except.error () ∧
      (start_recording s now aid fok).1.is_recording = false ∧
      (start_recording s now aid fok).1.current_action_id = none ∧
      alGet (start_recording s now aid fok).1.active_recordings aid =
        alGet s.active_recordings aid) := by
  have hcur : ¬ (s.is_recording = true ∧ s.current_action_id = some aid) := by
    intro hc
    obtain ⟨hca, hcb⟩ := hc
    rw [h2] at hcb
    injection hcb with hh
    exact hne hh.symm
  have hsw : s.is_recording = true ∧ s.current_action_id ≠ some aid := by
    refine ⟨h1, ?_⟩
    rw [h2]
    intro hh
    injection hh with hh2
    exact hne hh2.symm
  obtain ⟨e1, e2, e3, e4⟩ := stopSync_spec s now bid r h1 h2 h3 h4
  obtain ⟨p1, p2, p3, p4, p5, p6, p7⟩ := stopSync_preserves s now
  unfold start_recording
  rw [if_neg hcur, if_pos hsw]
  dsimp only
  cases fok <;> (repeat' split) <;>
    simp_all [alGet_alSet, hne, Ne.symm hne]

theorem add_frame_spec (s : RecState) (now : Nat) (p : List Nat) (aid : String)
    (r : SessionRec) (h1 : s.is_recording = true) (h2 : s.current_action_id = some aid)
    (h3 : aid ≠ "") (h4 : alGet s.active_recordings aid = some r)
    (h5 : s.frame_queue.maxsize = 0) :
    (add_frame s now p).is_recording = true ∧
    (add_frame s now p).current_action_id = some aid ∧
    (add_frame s now p).width = s.width ∧
    (add_frame s now p).height = s.height ∧
    (add_frame s now p).frame_queue.maxsize = 0 ∧
    alGet (add_frame s now p).active_recordings aid =
      some { r with frame_count :=
        r.frame_count + (if p.length = s.height * s.width * 3 then 1 else 0) } := by
  unfold add_frame
  rw [if_neg (by simp [h1])]
  by_cases hv : p.length = s.height * s.width * 3
  · rw [if_pos hv]
    simp only [mqPutNowait_unbounded _ _ h5]
    simp [h1, h2, h3, h4, h5, hv, alGet_alSet]
  · rw [if_neg hv]
    simp [h1, h2, h4, h5, hv]

theorem stopSync_keeps_key (s : RecState) (now : Nat) (k : String)
    (hk : (alGet s.active_recordings k).isSome = true) :
    (alGet (stopCurrentRecording s now).1.active_recordings k).isSome = true := by
  unfold stopCurrentRecording
  split
  · exact hk
  · cases hw : s.writer <;> simp only [hw] <;> (repeat' split) <;> (try dsimp only) <;>
      first
        | exact hk
        | (rw [alGet_alSet]; split <;> simp [hk])

theorem asyncStop_keeps_key (s : RecState) (now : Nat) (k : String)
    (hk : (alGet s.active_recordings k).isSome = true) :
    (alGet (stopCurrentRecordingAsync s now).1.active_recordings k).isSome = true := by
  unfold stopCurrentRecordingAsync
  split
  · exact hk
  · dsimp only
    (repeat' split) <;> (try dsimp only) <;>
      first
        | exact hk
        | (rw [alGet_alSet]; split <;> simp [hk])

theorem add_frame_keeps_key (s : RecState) (now : Nat) (p : List Nat) (k : String)
    (hk : (alGet s.active_recordings k).isSome = true) :
    (alGet (add_frame s now p).active_recordings k).isSome = true := by
  unfold add_frame
  (repeat' split) <;> (try dsimp only) <;> (repeat' split) <;> (try dsimp only) <;>
    first
      | exact hk
      | (rw [alGet_alSet]; split <;> simp [hk])

theorem stop_recording_keeps_key (s : RecState) (now : Nat) (aid k : String)
    (hk : (alGet s.active_recordings k).isSome = true) :
    (alGet (stop_recording s now aid).1.active_recordings k).isSome = true := by
  unfold stop_recording
  split
  · exact asyncStop_keeps_key s now k hk
  · exact hk

theorem start_recording_keeps_key (s : RecState) (now : Nat) (aid k : String) (fok : Bool)
    (hk : (alGet s.active_recordings k).isSome = true) :
    (alGet (start_recording s now aid fok).1.active_recordings k).isSome = true := by
  unfold start_recording
  split
  · exact hk
  · by_cases hsw : s.is_recording = true ∧ s.current_action_id ≠ some aid
    · rw [if_pos hsw]
      have hk2 := stopSync_keeps_key s now k hk
      dsimp only
      (repeat' split) <;> (try dsimp only) <;>
        first
          | exact hk2
          | (rw [alGet_alSet]; split <;> simp [hk2])
    · rw [if_neg hsw]
      dsimp only
      (repeat' split) <;> (try dsimp only) <;>
        first
          | exact hk
          | (rw [alGet_alSet]; split <;> simp [hk])

theorem writerStep_sessions (s : RecState) :
    (writerStep s).active_recordings = s.active_recordings := by
  unfold writerStep
  cases hq : s.frame_queue.items with
  | nil => rfl
  | cons msg rest =>
      cases msg <;> cases hw : s.writer <;> simp only [hw] <;>
        (repeat' split) <;> simp

theorem close_sessions (s : RecState) (now : Nat) :
    (recorder_close s now).active_recordings = s.active_recordings := by
  unfold recorder_close closeLockPhase
  by_cases h : s.is_recording = true ∧ optTruthy s.current_action_id = true
  · rw [if_pos h]
    cases hput : mqPutNowait s.frame_queue (QMsg.eos s.current_action_id now) with
    | none => cases hw : s.writer <;> simp [hput, hw]
    | some q => simp [hput]
  · rw [if_neg h]

/-- Claim C2 (amended): the worker routes a dequeued DATA message by
comparing the session id carried on the message against the CURRENT
active session id, with a single writer handle — not against a
per-session sink map.  The frame is written iff a writer object exists
and the carried id equals `current_action_id` at processing time; when
the writer is absent, or the carried id differs from the current id
(even if the open writer is that very session's sink, as in the close
interleaving of the counterexample), the frame is silently discarded. -/
theorem claim_C2_amended (s : RecState) (aid : Option String) (f : List Nat)
    (n t : Nat) (rest : List QMsg)
    (h : s.frame_queue.items = QMsg.data aid f n t :: rest) :
    (writerStep s).frame_queue.items = rest ∧
    (∀ w, s.writer = some w → aid = s.current_action_id →
      (writerStep s).frames_written = s.frames_written + 1 ∧
      (writerStep s).events = s.events ++ [REvent.wroteFrame w.hid aid n]) ∧
    (s.writer = none →
      (writerStep s).frames_written = s.frames_written ∧
      (writerStep s).events = s.events) ∧
    (aid ≠ s.current_action_id →
      (writerStep s).frames_written = s.frames_written ∧
      (writerStep s).events = s.events) := by
  unfold writerStep
  simp only [h]
  cases hw : s.writer <;> by_cases hc : aid = s.current_action_id <;>
    simp [hw, hc]

/-- Witness for the amended C2 at the counterexample state: the head
DATA message for "a" is dequeued but, since `current_action_id` is no
longer "a", nothing is written and no event is emitted. -/
theorem claim_C2_witness :
    (closeLockPhase recAF 2).frame_queue.items =
      QMsg.data (some "a") validPayload 0 1 :: [QMsg.eos (some "a") 2] ∧
    (writerStep (closeLockPhase recAF 2)).frame_queue.items = [QMsg.eos (some "a") 2] ∧
    ((writerStep (closeLockPhase recAF 2)).frames_written =
        (closeLockPhase recAF 2).frames_written ∧
      (writerStep (closeLockPhase recAF 2)).events = (closeLockPhase recAF 2).events) :=
  ⟨by decide,
   (claim_C2_amended (closeLockPhase recAF 2) (some "a") validPayload 0 1
      [QMsg.eos (some "a") 2] (by decide)).1,
   (claim_C2_amended (closeLockPhase recAF 2) (some "a") validPayload 0 1
      [QMsg.eos (some "a") 2] (by decide)).2.2.2 (by decide)⟩

/-- Every path of `start_recording` leaves the ghost enqueue log
unchanged: the call never enqueues anything. -/
theorem start_recording_put_log (s : RecState) (now : Nat) (aid : String) (fok : Bool) :
    (start_recording s now aid fok).1.put_log = s.put_log := by
  unfold start_recording
  by_cases h1 : s.is_recording = true ∧ s.current_action_id = some aid
  · simp [h1]
  · rw [if_neg h1]
    by_cases h2 : s.is_recording = true ∧ s.current_action_id ≠ some aid
    · rw [if_pos h2]
      have hq := (stopSync_preserves s now).2.2.2.2.2.2
      cases fok
      · simp [hq]
      · dsimp only
        (repeat' split) <;> simp [hq]
    · rw [if_neg h2]
      cases fok
      · simp
      · dsimp only
        (repeat' split) <;> simp

/-- Full effect of the synchronous stop on the registry, covering every
case of the current action id: a non-empty registered id is set to
`completed` with end time and duration; an unregistered id and the
falsy empty-string id (skipped by the truthiness guard at
recorder.py:423) leave the registry wholly unchanged. -/
theorem stopSync_sessions (s : RecState) (now : Nat) (bid : String)
    (h1 : s.is_recording = true) (h2 : s.current_action_id = some bid) :
    (stopCurrentRecording s now).1.is_recording = false ∧
    (stopCurrentRecording s now).1.current_action_id = none ∧
    (stopCurrentRecording s now).1.active_recordings =
      (if bid = "" then s.active_recordings
       else
         match alGet s.active_recordings bid with
         | some r =>
             alSet s.active_recordings bid
               { r with status := RStatus.completed, end_time := some now,
                        duration := some ((now : Int) - (r.start_time : Int)) }
         | none => s.active_recordings) := by
  unfold stopCurrentRecording
  rw [if_neg (by simp [h1])]
  by_cases hb : bid = ""
  · cases hw : s.writer <;> simp [hw, h2, hb]
  · cases hg : alGet s.active_recordings bid <;> cases hw : s.writer <;>
      simp [hw, h2, hb, hg]

/-- Whenever the idempotent early-return branch is not taken, a factory
failure propagates out of `start_recording` as the error. -/
theorem start_fail_error (s : RecState) (now : Nat) (aid : String)
    (h : ¬ (s.is_recording = true ∧ s.current_action_id = some aid)) :
    (start_recording s now aid false).2 = Except.error () := by
  unfold start_recording
  rw [if_neg h]
  split <;> rfl

/-- Factory failure with no active session: the registry is entirely
unchanged and the recorder is still not recording. -/
theorem start_fail_no_active (s : RecState) (now : Nat) (aid : String)
    (h1 : s.is_recording = false) :
    (start_recording s now aid false).1.active_recordings = s.active_recordings ∧
    (start_recording s now aid false).1.is_recording = false := by
  have hcur : ¬ (s.is_recording = true ∧ s.current_action_id = some aid) := by
    rintro ⟨h, -⟩
    rw [h1] at h
    cases h
  have hsw : ¬ (s.is_recording = true ∧ s.current_action_id ≠ some aid) := by
    rintro ⟨h, -⟩
    rw [h1] at h
    cases h
  unfold start_recording
  rw [if_neg hcur, if_neg hsw]
  exact ⟨rfl, h1⟩

/-- Full effect of `start_recording(aid)` on the previously active
session `bid ≠ aid`, with no restriction on `bid`: `bid`'s record is
completed (end time, duration) when `bid` is non-empty and registered,
and untouched when `bid` is empty or unregistered; on factory success
the new session is active, on factory failure the error propagates,
nothing is registered for `aid`, and the recorder is left stopped. -/
theorem start_switch_sessions_eq (s : RecState) (now : Nat) (aid bid : String)
    (fok : Bool) (h1 : s.is_recording = true) (h2 : s.current_action_id = some bid)
    (hne : aid ≠ bid) :
    alGet (start_recording s now aid fok).1.active_recordings bid =
      (if bid = "" then alGet s.active_recordings bid
       else (alGet s.active_recordings bid).map (fun r =>
         { r with status := RStatus.completed, end_time := some now,
                  duration := some ((now : Int) - (r.start_time : Int)) })) ∧
    (fok = true → (start_recording s now aid fok).1.is_recording = true ∧
      (start_recording s now aid fok).1.current_action_id = some aid) ∧
    (fok = false → (start_recording s now aid fok).2 = Except.error () ∧
      (start_recording s now aid fok).1.is_recording = false ∧
      (start_recording s now aid fok).1.current_action_id = none ∧
      alGet (start_recording s now aid fok).1.active_recordings aid =
        alGet s.active_recordings aid) := by
  have hcur : ¬ (s.is_recording = true ∧ s.current_action_id = some aid) := by
    intro hc
    obtain ⟨hca, hcb⟩ := hc
    rw [h2] at hcb
    injection hcb with hh
    exact hne hh.symm
  have hsw : s.is_recording = true ∧ s.current_action_id ≠ some aid := by
    refine ⟨h1, ?_⟩
    rw [h2]
    intro hh
    injection hh with hh2
    exact hne hh2.symm
  obtain ⟨e1, e2, e3⟩ := stopSync_sessions s now bid h1 h2
  unfold start_recording
  rw [if_neg hcur, if_pos hsw]
  dsimp only
  by_cases hb : bid = ""
  · rw [if_pos hb] at e3
    cases fok <;> (repeat' split) <;>
      simp_all [alGet_alSet, hne, Ne.symm hne]
  · rw [if_neg hb] at e3
    cases hg : alGet s.active_recordings bid <;> rw [hg] at e3 <;>
      cases fok <;> (repeat' split) <;>
        simp_all [alGet_alSet, hne, Ne.symm hne]

/-- Claim C3 (amended): `start_recording(aid)` while ANY different
session `bid` is active performs a SYNCHRONOUS stop of `bid` on the
caller's thread, blocking on a bounded drain wait: no end-of-session
sentinel is ever enqueued (both the frame queue and the ghost enqueue
log are unchanged by the whole call), and `bid` never passes through
`finalizing` — its record is set straight to `completed` with end time
and duration when `bid` is non-empty (untouched when `bid` is
unregistered, and, by the same truthiness guard as C5, wholly untouched
when `bid` is the falsy empty string); the active pointer moves to
`aid` on factory success. -/
theorem claim_C3_amended (s : RecState) (now : Nat) (aid bid : String) (fok : Bool)
    (h1 : s.is_recording = true) (h2 : s.current_action_id = some bid)
    (hne : aid ≠ bid) :
    (start_recording s now aid fok).1.put_log = s.put_log ∧
    (start_recording s now aid fok).1.frame_queue = s.frame_queue ∧
    alGet (start_recording s now aid fok).1.active_recordings bid =
      (if bid = "" then alGet s.active_recordings bid
       else (alGet s.active_recordings bid).map (fun r =>
         { r with status := RStatus.completed, end_time := some now,
                  duration := some ((now : Int) - (r.start_time : Int)) })) ∧
    (fok = true → (start_recording s now aid fok).1.is_recording = true ∧
      (start_recording s now aid fok).1.current_action_id = some aid) := by
  have h := start_switch_sessions_eq s now aid bid fok h1 h2 hne
  exact ⟨start_recording_put_log s now aid fok, start_recording_queue s now aid fok,
         h.1, h.2.1⟩

/-- Witness for the amended C3: start "a", then start "b"; nothing was
enqueued, "a" is completed synchronously, "b" is active. -/
theorem claim_C3_witness :
    recA.is_recording = true ∧ recA.current_action_id = some "a" ∧
    ("b" : String) ≠ "a" ∧
    ((start_recording recA 1 "b" true).1.put_log = recA.put_log ∧
     (start_recording recA 1 "b" true).1.frame_queue = recA.frame_queue ∧
     alGet (start_recording recA 1 "b" true).1.active_recordings "a" =
       (if ("a" : String) = "" then alGet recA.active_recordings "a"
        else (alGet recA.active_recordings "a").map (fun r =>
          { r with status := RStatus.completed, end_time := some 1,
                   duration := some ((1 : Int) - (r.start_time : Int)) })) ∧
     (true = true → (start_recording recA 1 "b" true).1.is_recording = true ∧
       (start_recording recA 1 "b" true).1.current_action_id = some "b")) :=
  ⟨by decide, by decide, by decide,
   claim_C3_amended recA 1 "b" "a" true (by decide) (by decide) (by decide)⟩

/-- Claim C4 (amended): if the sink factory fails during
`start_recording(aid)` (the factory only runs when `aid` is not already
the active session), the error propagates synchronously and no session
for `aid` is registered.  With no active session the registry is
entirely unchanged.  With a different active session `bid`, that
session is NOT left untouched: it has already been synchronously
stopped before the factory was invoked — the recorder is no longer
recording and the active pointer is cleared — and its record is set to
`completed` with end time and duration when `bid` is non-empty (left
with its prior status when `bid` is unregistered or the falsy empty
string). -/
theorem claim_C4_amended (s : RecState) (now : Nat) (aid bid : String) :
    (¬ (s.is_recording = true ∧ s.current_action_id = some aid) →
      (start_recording s now aid false).2 = Except.error ()) ∧
    (s.is_recording = false →
      (start_recording s now aid false).1.active_recordings = s.active_recordings ∧
      (start_recording s now aid false).1.is_recording = false) ∧
    (s.is_recording = true → s.current_action_id = some bid → aid ≠ bid →
      (start_recording s now aid false).1.is_recording = false ∧
      (start_recording s now aid false).1.current_action_id = none ∧
      alGet (start_recording s now aid false).1.active_recordings aid =
        alGet s.active_recordings aid ∧
      alGet (start_recording s now aid false).1.active_recordings bid =
        (if bid = "" then alGet s.active_recordings bid
         else (alGet s.active_recordings bid).map (fun r =>
           { r with status := RStatus.completed, end_time := some now,
                    duration := some ((now : Int) - (r.start_time : Int)) }))) := by
  refine ⟨fun h => start_fail_error s now aid h,
          fun h1 => start_fail_no_active s now aid h1,
          fun h1 h2 hne => ?_⟩
  have h := start_switch_sessions_eq s now aid bid false h1 h2 hne
  obtain ⟨hsess, -, hf⟩ := h
  obtain ⟨e1, e2, e3, e4⟩ := hf rfl
  exact ⟨e2, e3, e4, hsess⟩

/-- Witness for the amended C4: concrete factory failure while "a" is
active. -/
theorem claim_C4_witness :
    ¬ (recA.is_recording = true ∧ recA.current_action_id = some "b") ∧
    recA.is_recording = true ∧ recA.current_action_id = some "a" ∧
    ("b" : String) ≠ "a" ∧
    (start_recording recA 1 "b" false).2 = Except.error () ∧
    ((start_recording recA 1 "b" false).1.is_recording = false ∧
     (start_recording recA 1 "b" false).1.current_action_id = none ∧
     alGet (start_recording recA 1 "b" false).1.active_recordings "b" =
       alGet recA.active_recordings "b" ∧
     alGet (start_recording recA 1 "b" false).1.active_recordings "a" =
       (if ("a" : String) = "" then alGet recA.active_recordings "a"
        else (alGet recA.active_recordings "a").map (fun r =>
          { r with status := RStatus.completed, end_time := some 1,
                   duration := some ((1 : Int) - (r.start_time : Int)) }))) :=
  ⟨by decide, by decide, by decide, by decide,
   (claim_C4_amended recA 1 "b" "a").1 (by decide),
   (claim_C4_amended recA 1 "b" "a").2.2 (by decide) (by decide) (by decide)⟩

/-- Claim C5 (amended): for every sequence of `add_frame` calls made
while one session with a NON-EMPTY id is active, the session's
`frame_count` observed via `get_recording_status` grows by exactly the
number of calls whose payload length is `height*width*3`; wrong-size
payloads never raise (the model transition is total — the Python
exception is caught inside `add_frame`), do not increment the counter,
and leave the session active with all other record fields (including
its `recording` status) unchanged.  For the empty-string id the counter
is never incremented (see the counterexample), which is the one
restriction the original claim is missing. -/
theorem claim_C5_amended (s : RecState) (now : Nat) (aid : String) (r : SessionRec)
    (ps : List (List Nat)) (h1 : s.is_recording = true)
    (h2 : s.current_action_id = some aid) (h3 : aid ≠ "")
    (h4 : alGet s.active_recordings aid = some r) (h5 : s.frame_queue.maxsize = 0) :
    (ps.foldl (fun st p => add_frame st now p) s).is_recording = true ∧
    (ps.foldl (fun st p => add_frame st now p) s).current_action_id = some aid ∧
    get_recording_status (ps.foldl (fun st p => add_frame st now p) s) aid =
      some { r with frame_count := r.frame_count + countValid s.width s.height ps } := by
  induction ps generalizing s r with
  | nil =>
      refine ⟨h1, h2, ?_⟩
      simp [get_recording_status, countValid, h4]
  | cons p ps ih =>
      obtain ⟨a1, a2, a3, a4, a5, a6⟩ := add_frame_spec s now p aid r h1 h2 h3 h4 h5
      obtain ⟨b1, b2, b3⟩ := ih (add_frame s now p) _ a1 a2 a6 a5
      refine ⟨by simpa using b1, by simpa using b2, ?_⟩
      rw [List.foldl_cons]
      rw [b3]
      rw [a3, a4]
      simp [countValid, Nat.add_assoc]

/-- Witness for the amended C5: three `add_frame` calls against active
session "a" (valid, invalid, valid) leave `frame_count = 2`. -/
theorem claim_C5_witness :
    recA.is_recording = true ∧ recA.current_action_id = some "a" ∧
    ("a" : String) ≠ "" ∧
    get_recording_status
      ([validPayload, [0], validPayload].foldl (fun st p => add_frame st 1 p) recA) "a" =
      some { file_path := "/r/action_a_0.mp4", start_time := 0,
             status := RStatus.recording, frame_count := 2,
             end_time := none, duration := none, err := none } := by
  have h := claim_C5_amended recA 1 "a"
    { file_path := "/r/action_a_0.mp4", start_time := 0,
      status := RStatus.recording, frame_count := 0,
      end_time := none, duration := none, err := none }
    [validPayload, [0], validPayload]
    (by decide) (by decide) (by decide) (by decide) (by decide)
  exact ⟨by decide, by decide, by decide, h.2.2⟩

/-- Claim C6 (confirmed): `start_recording(aid)` when `aid` is already
the active session is idempotent — composing a second call (at any
later time, with any factory outcome) returns exactly the pair the
first call returned: same path, and the whole recorder state unchanged
(so no new session object, the sink is not reopened — `next_handle`
unchanged — and every counter, `frame_count` included, is as before). -/
theorem claim_C6_start_idempotent (s0 : RecState) (now now2 : Nat) (aid : String)
    (fok2 : Bool) :
    start_recording (start_recording s0 now aid true).1 now2 aid fok2 =
      start_recording s0 now aid true := by
  by_cases h : s0.is_recording = true ∧ s0.current_action_id = some aid
  · rw [start_recording_already s0 now aid true h]
    exact start_recording_already s0 now2 aid fok2 h
  · obtain ⟨f1, f2, p, f3, f4⟩ := start_true_fields s0 now aid h
    rw [start_recording_already _ now2 aid fok2 ⟨f1, f2⟩, f3]
    refine Prod.ext rfl ?_
    rw [f4]
    rfl

/-- Claim C7 (confirmed): `stop_recording(aid)` returns `None` and
leaves the whole state unchanged whenever `aid` is not the active
session; and a second `stop_recording(aid)` right after any first stop
returns `None` (after a successful stop the recorder is no longer
recording, so the second call takes the not-active branch). -/
theorem claim_C7_stop_absent (s : RecState) (now now2 : Nat) (aid : String) :
    (¬ (s.is_recording = true ∧ s.current_action_id = some aid) →
      stop_recording s now aid = (s, none)) ∧
    stop_recording (stop_recording s now aid).1 now2 aid =
      ((stop_recording s now aid).1, none) := by
  constructor
  · intro h
    exact stop_recording_not_active s now aid h
  · by_cases h : s.is_recording = true ∧ s.current_action_id = some aid
    · have ht : (stop_recording s now aid).1.is_recording = false := by
        unfold stop_recording
        rw [if_pos h]
        exact asyncStop_not_recording s now
      refine stop_recording_not_active _ now2 aid ?_
      intro hc
      rw [ht] at hc
      exact Bool.false_ne_true hc.1
    · rw [stop_recording_not_active s now aid h]
      exact stop_recording_not_active s now2 aid h

/-- Witness for C7: stopping "b" while "a" is active is a no-op, and a
second stop of "a" after the successful first stop returns `None`. -/
theorem claim_C7_witness :
    ¬ (recA.is_recording = true ∧ recA.current_action_id = some "b") ∧
    stop_recording recA 5 "b" = (recA, none) ∧
    stop_recording (stop_recording recA 5 "a").1 6 "a" =
      ((stop_recording recA 5 "a").1, none) :=
  ⟨by decide, (claim_C7_stop_absent recA 5 6 "b").1 (by decide),
   (claim_C7_stop_absent recA 5 6 "a").2⟩

/-- Claim C8 (amended): registry KEYS are never removed automatically —
`start_recording`, `add_frame`, `stop_recording`, the writer loop and
`close` all preserve every existing key, and only `delete_recording` /
`cleanup_old_recordings` remove entries.  However the original claim's
"never ... replaced, including when start_recording is later called
again with the same id" fails: restarting an id while not recording
overwrites that id's record with a brand-new one (fresh path, status
`recording`, `frame_count` 0), as the counterexample shows. -/
theorem claim_C8_amended (s : RecState) (now : Nat) (aid k : String)
    (p : List Nat) (fok : Bool) :
    ((alGet s.active_recordings k).isSome = true →
      (alGet (start_recording s now aid fok).1.active_recordings k).isSome = true ∧
      (alGet (add_frame s now p).active_recordings k).isSome = true ∧
      (alGet (stop_recording s now aid).1.active_recordings k).isSome = true ∧
      (alGet (writerStep s).active_recordings k).isSome = true ∧
      (alGet (recorder_close s now).active_recordings k).isSome = true) ∧
    (s.is_recording = false →
      alGet (start_recording s now aid true).1.active_recordings aid =
        some { file_path := recordingPathName s.output_dir aid now, start_time := now,
               status := RStatus.recording, frame_count := 0, end_time := none,
               duration := none, err := none }) := by
  constructor
  · intro hk
    exact ⟨start_recording_keeps_key s now aid k fok hk,
           add_frame_keeps_key s now p k hk,
           stop_recording_keeps_key s now aid k hk,
           by rw [writerStep_sessions]; exact hk,
           by rw [close_sessions]; exact hk⟩
  · intro hrec
    unfold start_recording
    rw [if_neg (by simp [hrec]), if_neg (by simp [hrec])]
    dsimp only
    (repeat' split) <;> simp_all [alGet_alSet]

/-- Witness for the amended C8: the stopped session "a" keeps its key
across a restart, and the restart installs the fresh record. -/
theorem claim_C8_witness :
    (alGet recAFS.active_recordings "a").isSome = true ∧
    recAFS.is_recording = false ∧
    (alGet (start_recording recAFS 3 "a" true).1.active_recordings "a").isSome = true ∧
    alGet (start_recording recAFS 3 "a" true).1.active_recordings "a" =
      some { file_path := recordingPathName recAFS.output_dir "a" 3, start_time := 3,
             status := RStatus.recording, frame_count := 0, end_time := none,
             duration := none, err := none } :=
  ⟨by decide, by decide,
   ((claim_C8_amended recAFS 3 "a" "a" validPayload true).1 (by decide)).1,
   (claim_C8_amended recAFS 3 "a" "a" validPayload true).2 (by decide)⟩

/-- Claim C9 (confirmed): the recorder's frame queue is constructed
unbounded (`maxsize = 0`), every recorder operation preserves that
bound, and on an unbounded queue `put_nowait` always succeeds,
appending the message in FIFO position — so the `queue.Full` handling
branches in `add_frame`, in the async stop's sentinel send, and in
`close` are unreachable, and no enqueue ever blocks or drops a
message. -/
theorem claim_C9_unbounded_queue (d : String) (w hgt : Nat) (s : RecState) (m : QMsg)
    (now : Nat) (aid : String) (p : List Nat) (fok : Bool) :
    (recorderInit d w hgt).frame_queue.maxsize = 0 ∧
    (s.frame_queue.maxsize = 0 →
      mqPutNowait s.frame_queue m =
        some { s.frame_queue with items := s.frame_queue.items ++ [m] }) ∧
    (add_frame s now p).frame_queue.maxsize = s.frame_queue.maxsize ∧
    (start_recording s now aid fok).1.frame_queue.maxsize = s.frame_queue.maxsize ∧
    (stop_recording s now aid).1.frame_queue.maxsize = s.frame_queue.maxsize ∧
    (writerStep s).frame_queue.maxsize = s.frame_queue.maxsize ∧
    (recorder_close s now).frame_queue.maxsize = s.frame_queue.maxsize := by
  refine ⟨rfl, fun h0 => mqPutNowait_unbounded _ m h0, add_frame_queue_maxsize s now p,
    ?_, stop_recording_queue_maxsize s now aid, writerStep_queue_maxsize s,
    close_queue_maxsize s now⟩
  rw [start_recording_queue]

/-- Witness for C9: a concrete enqueue on the freshly initialized
recorder's queue succeeds. -/
theorem claim_C9_witness :
    rec0.frame_queue.maxsize = 0 ∧
    mqPutNowait rec0.frame_queue (QMsg.eos none 0) =
      some { rec0.frame_queue with items := rec0.frame_queue.items ++ [QMsg.eos none 0] } :=
  ⟨by decide,
   (claim_C9_unbounded_queue "/r" 2 1 rec0 (QMsg.eos none 0) 0 "a" validPayload true).2.1
     (by decide)⟩
